import Mathlib

/-!
Shallow embedding of `environment.go` from sean9999/go-platoon (package flargs).

The Go file defines the `Environment` struct (three `io.ReadWriter` streams, a
`rand.Source`, a `WritableFs`, a variable map and an argument list), three
constructors (`NewCLIEnvironment`, `NewTestingEnvironment`, `NewNullEnvironment`),
the three drain methods (`GetOutput`, `GetError`, `GetInput`) and the `NullDevice`
adapter.

Modelling choices:
- bytes are `Nat` (byte values are opaque to every operation modelled here);
- a Go `map[string]string` is an association list where an insert removes the
  older binding, so `List.lookup` is the map lookup;
- Go's `(value, error)` returns become pairs whose error component is an
  `Option`: `none` is Go's `nil` error;
- the drain loops (`io.ReadAll` in `GetOutput`, `bytes.Buffer.ReadFrom` in
  `GetError`/`GetInput`) both accumulate the bytes of every read, stop as soon
  as a read reports a non-nil error (treating `io.EOF` as normal end), and the
  callers discard the error.  They are modelled by one fuelled loop `drainLoop`;
  `none` means the loop has not finished within the given fuel.  Chunking is
  abstracted: one model read of a buffer returns all currently buffered bytes
  (the Go loop may need several reads of the same buffer but accumulates the
  same byte sequence before hitting `io.EOF`, which is all the drain returns);
- a process-bound stream (`os.Stdin` …) is modelled as a scripted sequence of
  read results, part of the ambient process snapshot `ProcState`;
- arithmetic on byte counts never overflows in any claim, so `Nat` stands for
  Go's `int` lengths.
-/

/-- The result component of a Go stream read/write: `eof` is `io.EOF`, `fail`
is any other non-nil error. `Option StreamErr` with `none` models a nil error. -/
inductive StreamErr where
  | eof
  | fail
deriving DecidableEq, Repr

/-- A byte sequence (`[]byte`). -/
abbrev ByteSeq := List Nat

/-- One scripted read result of an ambient OS stream: the bytes the read
returns together with its error component. -/
abbrev ReadEvent := ByteSeq × Option StreamErr

/-- The `io.ReadWriter` values that occur as `Environment` stream fields:
`buffer pending` is a `*bytes.Buffer` holding `pending` undrained bytes
(`NewTestingEnvironment`); `nullStream` is `NullDevice{io.Discard}`
(`NewNullEnvironment`); `os events` is a real process stream (`os.Stdin`,
`os.Stdout`, `os.Stderr`) whose future reads are the scripted `events`
(`NewCLIEnvironment`). -/
inductive Stream0 where
  | buffer (pending : ByteSeq)
  | nullStream
  | os (events : List ReadEvent)
deriving DecidableEq, Repr

/-- One read from a stream: the bytes obtained, the error component, and the
stream afterwards.
`bytes.Buffer.Read`: a non-empty buffer yields its content with nil error, an
empty buffer yields no bytes and `io.EOF`.
`NullDevice.Read`: always `(0, nil)` — zero bytes, nil error.
An OS stream consumes its next scripted event; an exhausted script reads as
end of stream. -/
def streamRead : Stream0 → ByteSeq × Option StreamErr × Stream0
  | .buffer [] => ([], some .eof, .buffer [])
  | .buffer (b :: bs) => (b :: bs, none, .buffer [])
  | .nullStream => ([], none, .nullStream)
  | .os [] => ([], some .eof, .os [])
  | .os (e :: rest) => (e.1, e.2, .os rest)

/-- One write to a stream: bytes written count, error component, stream after.
`bytes.Buffer.Write` appends and returns `(len(p), nil)`;
`NullDevice{io.Discard}.Write` is `io.Discard.Write`: discards and returns
`(len(p), nil)`; a write to a real process stream leaves the modelled state
unchanged (its effect, output on the terminal, is outside the model) and
reports success. -/
def streamWrite (s : Stream0) (bs : ByteSeq) : Nat × Option StreamErr × Stream0 :=
  match s with
  | .buffer pending => (bs.length, none, .buffer (pending ++ bs))
  | .nullStream => (bs.length, none, .nullStream)
  | .os ev => (bs.length, none, .os ev)

/-- The shared accumulation loop of `io.ReadAll` and `bytes.Buffer.ReadFrom`:
read, append the bytes obtained, stop as soon as the error component is
non-nil (both loops continue exactly when the read error is nil), and hand
back whatever was accumulated — `GetOutput` discards `io.ReadAll`'s error and
`GetError`/`GetInput` ignore `ReadFrom`'s, so the bytes are all that escapes.
`fuel` bounds the number of reads; `none` means the loop is still running. -/
def drainLoop : Nat → Stream0 → ByteSeq → Option (ByteSeq × Stream0)
  | 0, _, _ => none
  | fuel + 1, s, acc =>
    match streamRead s with
    | (chunk, some _, s') => some (acc ++ chunk, s')
    | (chunk, none, s') => drainLoop fuel s' (acc ++ chunk)

/-- The error type of filesystem operations; the concrete message is never
inspected. -/
abbrev FsError := String

/-- The state of the one real, OS-backed filesystem, as a path-to-content
table. -/
abbrev OsWorld := List (String × ByteSeq)

/-- The `WritableFs` values that occur as `Environment.Filesystem`:
`real` is the handle `rfs.NewWritable()` returns and `nullFs` is `NullDevice{}`. -/
inductive FsHandle where
  | real
  | nullFs
deriving DecidableEq, Repr

namespace NullDevice

/-- `NullDevice.Read`: always zero bytes with nil error. -/
def Read (_ : ByteSeq) : Nat × Option StreamErr := (0, none)

/-- `NullDevice.Open`: `return nil, nil` — absent file, nil error. -/
def Open (_ : String) : Option Unit × Option FsError := (none, none)

/-- `NullDevice.ReadDir`: `return nil, nil` — absent entry list, nil error. -/
def ReadDir (_ : String) : Option (List Unit) × Option FsError := (none, none)

/-- `NullDevice.ReadFile`: `return nil, nil` — absent bytes, nil error. -/
def ReadFile (_ : String) : Option ByteSeq × Option FsError := (none, none)

/-- `NullDevice.Stat`: `return nil, nil` — absent file info, nil error. -/
def Stat (_ : String) : Option Unit × Option FsError := (none, none)

/-- `NullDevice.OpenFile`: `return nil, nil` — absent writable file, nil error,
for every name, flag and permission. -/
def OpenFile (_ : String) (_ : Int) (_ : Nat) : Option Unit × Option FsError :=
  (none, none)

/-- `NullDevice.Remove`: `return nil` — nil error, no state touched. -/
def Remove (_ : String) : Option FsError := none

/-- `NullDevice.WriteFile`: `return nil` — nil error, no state touched. -/
def WriteFile (_ : String) (_ : ByteSeq) (_ : Nat) : Option FsError := none

end NullDevice

/-- Modelled from the spec: `rfs.NewWritable` lives in the external module
github.com/sean9999/go-real-fs, whose source is not in this repository.  Per
the spec it yields "a real, OS-backed filesystem implementation", i.e. a
handle onto the one shared OS filesystem, so its `WriteFile` on a writable
path stores the contents there.  `NullDevice.WriteFile` is a nil-error no-op. -/
def FsHandle.writeFile (h : FsHandle) (w : OsWorld) (path : String) (data : ByteSeq) :
    Option FsError × OsWorld :=
  match h with
  | .real => (none, (path, data) :: w.filter (fun p => p.1 ≠ path))
  | .nullFs => (NullDevice.WriteFile path data 0, w)

/-- Modelled from the spec: reading a file through the handle
`rfs.NewWritable` returns: present contents from the shared OS filesystem, or
a does-not-exist error.  `NullDevice.ReadFile` is `(nil, nil)`. -/
def FsHandle.readFile (h : FsHandle) (w : OsWorld) (path : String) :
    Option ByteSeq × Option FsError :=
  match h with
  | .real =>
    match w.lookup path with
    | some d => (some d, none)
    | none => (none, some "file does not exist")
  | .nullFs => NullDevice.ReadFile path

/-- The `Environment` struct.  `Randomness` is the stored `rand.Source`,
abstracted to its seed; `none` is a nil source.  `Variables` is the
`map[string]string` as an association list (`mapInsert` keeps keys unique). -/
structure Environment where
  InputStream : Stream0
  OutputStream : Stream0
  ErrorStream : Stream0
  Randomness : Option Int
  Filesystem : FsHandle
  Variables : List (String × String)
  Arguments : List String
deriving DecidableEq, Repr

/-- Go map assignment `m[k] = v`: the new binding replaces any older one. -/
def mapInsert (m : List (String × String)) (k v : String) : List (String × String) :=
  (k, v) :: m.filter (fun p => p.1 ≠ k)

/-- `strings.IndexByte(s, '=')` on the character list of `s`: the index of the
first `=`, or `none` when there is none (Go: `-1`). -/
def indexOfEq : List Char → Option Nat
  | [] => none
  | c :: rest => if c = '=' then some 0 else (indexOfEq rest).map (· + 1)

/-- One iteration of the loop in `envAsMap`: `i := strings.IndexByte(s, '=')`
then `m[s[0:i]] = s[i+1:]`.  When `s` has no `=`, `i` is `-1` and the Go slice
expression `s[0:i]` panics — modelled as `none`. -/
def splitEnvEntry (s : String) : Option (String × String) :=
  match indexOfEq s.toList with
  | none => none
  | some i => some (String.mk (s.toList.take i), String.mk (s.toList.drop (i + 1)))

/-- The loop of `envAsMap` over the remaining entries, with the map built so
far; `none` is the panic on a malformed entry. -/
def envFold : List (String × String) → List String → Option (List (String × String))
  | m, [] => some m
  | m, s :: rest =>
    match splitEnvEntry s with
    | none => none
    | some kv => envFold (mapInsert m kv.1 kv.2) rest

/-- `envAsMap(envs)`: build the variable map from the `"KEY=VALUE"` entries,
starting from an empty map. -/
def envAsMap (envs : List String) : Option (List (String × String)) :=
  envFold [] envs

/-- The ambient process state `NewCLIEnvironment` reads: the environment
entries (`os.Environ()`), the argument vector (`os.Args`), the clock
(`time.Now().UnixNano()`), and the scripted behaviour of the three process
streams. -/
structure ProcState where
  environ : List String
  args : List String
  nowNanos : Int
  stdinEvents : List ReadEvent
  stdoutEvents : List ReadEvent
  stderrEvents : List ReadEvent
deriving DecidableEq, Repr

/-- `NewCLIEnvironment(baseDir)`: convert the process environment to a map
(panicking on a malformed entry, hence `Option`), force the reserved marker to
`"cli"`, and wire the process streams, a time-seeded randomness source, the
real filesystem handle and `os.Args`. -/
def NewCLIEnvironment (baseDir : String) (ps : ProcState) : Option Environment :=
  (envAsMap ps.environ).map (fun vars =>
    { InputStream := .os ps.stdinEvents
      OutputStream := .os ps.stdoutEvents
      ErrorStream := .os ps.stderrEvents
      Randomness := some ps.nowNanos
      Filesystem := .real
      Variables := mapInsert vars "FLARGS_EXE_ENVIRONMENT" "cli"
      Arguments := ps.args })

/-- `NewTestingEnvironment(randomnessProvider)`: three fresh empty
`bytes.Buffer` streams, the caller's randomness source stored as given (a nil
source stays nil), `rfs.NewWritable()` as the filesystem, the marker map, and
empty arguments. -/
def NewTestingEnvironment (randomnessProvider : Option Int) : Environment :=
  { InputStream := .buffer []
    OutputStream := .buffer []
    ErrorStream := .buffer []
    Randomness := randomnessProvider
    Filesystem := .real
    Variables := [("FLARGS_EXE_ENVIRONMENT", "testing")]
    Arguments := [] }

/-- `NewNullEnvironment()`: all three streams are `NullDevice{io.Discard}`,
the filesystem is `NullDevice{}`, randomness is left nil, variables empty,
arguments empty. -/
def NewNullEnvironment : Environment :=
  { InputStream := .nullStream
    OutputStream := .nullStream
    ErrorStream := .nullStream
    Randomness := none
    Filesystem := .nullFs
    Variables := []
    Arguments := [] }

/-- `Environment.GetOutput`: `io.ReadAll(e.OutputStream)` with the error
discarded; draining consumes the stream, so the environment after the drain
carries the read stream state. -/
def Environment.GetOutput (e : Environment) (fuel : Nat) : Option (ByteSeq × Environment) :=
  (drainLoop fuel e.OutputStream []).map (fun r => (r.1, { e with OutputStream := r.2 }))

/-- `Environment.GetError`: `buf.ReadFrom(e.ErrorStream)` with the returned
count and error ignored, then `buf.Bytes()`. -/
def Environment.GetError (e : Environment) (fuel : Nat) : Option (ByteSeq × Environment) :=
  (drainLoop fuel e.ErrorStream []).map (fun r => (r.1, { e with ErrorStream := r.2 }))

/-- `Environment.GetInput`: `buf.ReadFrom(e.InputStream)` with the returned
count and error ignored, then `buf.Bytes()`. -/
def Environment.GetInput (e : Environment) (fuel : Nat) : Option (ByteSeq × Environment) :=
  (drainLoop fuel e.InputStream []).map (fun r => (r.1, { e with InputStream := r.2 }))

/-- A caller's write to the output stream of an environment. -/
def Environment.writeOutput (e : Environment) (bs : ByteSeq) :
    Nat × Option StreamErr × Environment :=
  let r := streamWrite e.OutputStream bs
  (r.1, r.2.1, { e with OutputStream := r.2.2 })

/-- A caller's write to the error stream of an environment. -/
def Environment.writeError (e : Environment) (bs : ByteSeq) :
    Nat × Option StreamErr × Environment :=
  let r := streamWrite e.ErrorStream bs
  (r.1, r.2.1, { e with ErrorStream := r.2.2 })

/-- A caller's write to the input stream of an environment. -/
def Environment.writeInput (e : Environment) (bs : ByteSeq) :
    Nat × Option StreamErr × Environment :=
  let r := streamWrite e.InputStream bs
  (r.1, r.2.1, { e with InputStream := r.2.2 })

/-- Splitting an entry the way the spec words it: the key is the longest
prefix without `=`, the value is the entire remainder after that first `=`
(so the value may itself contain `=`). -/
def specSplit (s : String) : String × String :=
  (String.mk (s.toList.takeWhile (fun c => c ≠ '=')),
   String.mk ((s.toList.dropWhile (fun c => c ≠ '=')).drop 1))

/-- The variable table the spec describes: the spec-side split of every entry
inserted in order. -/
def specTable (envs : List String) : List (String × String) :=
  envs.foldl (fun m s => mapInsert m (specSplit s).1 (specSplit s).2) []

/-- The environment used as concrete input for the drain-suppression claim:
all three streams deliver `[5]` successfully and then fail with `[6]`. -/
def envC7 : Environment :=
  { InputStream := .os [([5], none), ([6], some .fail)]
    OutputStream := .os [([5], none), ([6], some .fail)]
    ErrorStream := .os [([5], none), ([6], some .fail)]
    Randomness := none
    Filesystem := .nullFs
    Variables := []
    Arguments := [] }

/-- Draining a null stream makes no progress at any depth: every read returns
zero bytes with a nil error, so the loop never leaves its initial state. -/
lemma drainLoop_null (fuel : Nat) (acc : ByteSeq) :
    drainLoop fuel .nullStream acc = none := by
  induction fuel generalizing acc with
  | zero => rfl
  | succ n ih => exact ih (acc ++ [])

/-- Running the drain loop over a scripted stream that delivers the chunks of
`pre` successfully and then returns `c` together with a non-nil result:
every chunk up to and including the failing read is accumulated. -/
lemma drainLoop_os (pre : List ByteSeq) (c : ByteSeq) (r : StreamErr)
    (rest : List ReadEvent) (acc : ByteSeq) :
    drainLoop (pre.length + 1)
        (.os (pre.map (fun x => (x, none)) ++ (c, some r) :: rest)) acc
      = some (acc ++ (pre.flatten ++ c), .os rest) := by
  induction pre generalizing acc with
  | nil => rfl
  | cons p ps ih =>
    have step :
        drainLoop ((p :: ps).length + 1)
            (.os ((p :: ps).map (fun x => (x, none)) ++ (c, some r) :: rest)) acc
          = drainLoop (ps.length + 1)
            (.os (ps.map (fun x => (x, none)) ++ (c, some r) :: rest)) (acc ++ p) := by
      simp [drainLoop, streamRead]
    rw [step, ih (acc ++ p)]
    simp [List.append_assoc]

/-- A fresh map assignment wins every later lookup of its key. -/
lemma lookup_mapInsert_self (m : List (String × String)) (k v : String) :
    (mapInsert m k v).lookup k = some v := by
  simp [mapInsert, List.lookup]

/-- `strings.IndexByte(s, '=')` reports -1 exactly on the entries with no `=`. -/
lemma indexOfEq_none_iff (l : List Char) : indexOfEq l = none ↔ '=' ∉ l := by
  induction l with
  | nil => simp [indexOfEq]
  | cons a t ih =>
    by_cases ha : a = '='
    · subst ha
      simp [indexOfEq]
    · simp [indexOfEq, ha, Option.map_eq_none', ih, List.mem_cons, Ne.symm ha]

/-- When an entry contains `=`, the index found by `indexOfEq` cuts the list
into the longest `=`-free front and the remainder past the first `=`. -/
lemma indexOfEq_spec_of_mem (l : List Char) (h : '=' ∈ l) :
    ∃ i, indexOfEq l = some i ∧
      l.take i = l.takeWhile (fun c => c ≠ '=') ∧
      l.drop (i + 1) = (l.dropWhile (fun c => c ≠ '=')).drop 1 := by
  induction l with
  | nil => simp at h
  | cons a t ih =>
    by_cases ha : a = '='
    · subst ha
      exact ⟨0, by simp [indexOfEq], by simp [List.takeWhile_cons], by simp [List.dropWhile_cons]⟩
    · have hmem : '=' ∈ t := by
        rcases List.mem_cons.mp h with h1 | h1
        · exact absurd h1.symm ha
        · exact h1
      obtain ⟨i, h1, h2, h3⟩ := ih hmem
      refine ⟨i + 1, ?_, ?_, ?_⟩
      · simp [indexOfEq, ha, h1]
      · simp [List.take_succ_cons, List.takeWhile_cons, ha, h2]
      · simp [List.drop_succ_cons, List.dropWhile_cons, ha, h3]

/-- On a well-formed entry the Go split (index, slice) agrees with the spec's
description (longest `=`-free front, whole remainder after the first `=`). -/
lemma splitEnvEntry_eq_spec (s : String) (h : '=' ∈ s.toList) :
    splitEnvEntry s = some (specSplit s) := by
  obtain ⟨i, h1, h2, h3⟩ := indexOfEq_spec_of_mem s.toList h
  simp only [splitEnvEntry, specSplit, h1, h2, h3]

/-- On a malformed entry the Go split panics (modelled `none`). -/
lemma splitEnvEntry_eq_none (s : String) (h : '=' ∉ s.toList) :
    splitEnvEntry s = none := by
  unfold splitEnvEntry
  rw [(indexOfEq_none_iff s.toList).mpr h]

/-- When every entry is well-formed, the `envAsMap` loop completes and builds
exactly the table of spec-side splits, inserted in entry order. -/
lemma envFold_eq_foldl (envs : List String) (h : ∀ s ∈ envs, '=' ∈ s.toList)
    (m : List (String × String)) :
    envFold m envs
      = some (envs.foldl (fun m s => mapInsert m (specSplit s).1 (specSplit s).2) m) := by
  induction envs generalizing m with
  | nil => rfl
  | cons s rest ih =>
    have hs := splitEnvEntry_eq_spec s (h s (List.mem_cons_self s rest))
    simp only [envFold, hs, List.foldl_cons]
    exact ih (fun x hx => h x (List.mem_cons_of_mem s hx)) _

/-- When some entry is malformed, the `envAsMap` loop reaches it and panics. -/
lemma envFold_eq_none (envs : List String) (m : List (String × String))
    (h : ∃ s ∈ envs, '=' ∉ s.toList) :
    envFold m envs = none := by
  induction envs generalizing m with
  | nil => simp at h
  | cons s rest ih =>
    by_cases hs : '=' ∈ s.toList
    · simp only [envFold, splitEnvEntry_eq_spec s hs]
      apply ih
      obtain ⟨t, ht, htno⟩ := h
      rcases List.mem_cons.mp ht with h1 | h1
      · subst h1
        exact absurd hs htno
      · exact ⟨t, h1, htno⟩
    · simp only [envFold, splitEnvEntry_eq_none s hs]

/-- C1: the claim says two `NewTestingEnvironment` calls have disjoint
filesystem state.  The code binds the `Filesystem` of every testing context to
`rfs.NewWritable()` — the same OS-backed constructor `NewCLIEnvironment` uses —
so all testing contexts share the one real filesystem: a file written through
the first context's filesystem is read back, present, through the second's. -/
theorem C1_testing_filesystems_shared :
    (NewTestingEnvironment none).Filesystem = FsHandle.real ∧
    FsHandle.readFile (NewTestingEnvironment none).Filesystem
        (FsHandle.writeFile (NewTestingEnvironment (some 7)).Filesystem [] "f.txt" [120]).2
        "f.txt"
      = (some [120], none) := ⟨rfl, by decide⟩

/-- C2 (counterexample): the claim says a drain after a write to a null
context's stream terminates and returns the empty sequence.  It does not
terminate: `NullDevice.Read` always returns `(0, nil)`, so the accumulation
loop of the drain never sees the non-nil error it stops on — after writing
`[1]` to the output stream, no fuel makes `GetOutput` finish. -/
theorem C2_null_drain_never_terminates :
    ¬ ∃ fuel out, ((NewNullEnvironment.writeOutput [1]).2.2).GetOutput fuel = some out := by
  rintro ⟨fuel, out, h⟩
  have hnone : ((NewNullEnvironment.writeOutput [1]).2.2).GetOutput fuel = none := by
    show (drainLoop fuel .nullStream []).map _ = none
    rw [drainLoop_null]
    rfl
  rw [hnone] at h
  exact Option.noConfusion h

/-- C2 (amended): writing any non-empty byte sequence to any of the null
context's three streams succeeds (the full length is reported with a nil
error), but a subsequent drain of that stream never terminates: every read of
the null stream returns zero bytes with a nil error, so the drain loop makes
no progress at any depth. -/
theorem C2_null_write_ok_drain_diverges (b : ByteSeq) (hb : b ≠ []) :
    ((NewNullEnvironment.writeOutput b).1 = b.length ∧
      (NewNullEnvironment.writeOutput b).2.1 = none ∧
      ∀ fuel, ((NewNullEnvironment.writeOutput b).2.2).GetOutput fuel = none) ∧
    ((NewNullEnvironment.writeError b).1 = b.length ∧
      (NewNullEnvironment.writeError b).2.1 = none ∧
      ∀ fuel, ((NewNullEnvironment.writeError b).2.2).GetError fuel = none) ∧
    ((NewNullEnvironment.writeInput b).1 = b.length ∧
      (NewNullEnvironment.writeInput b).2.1 = none ∧
      ∀ fuel, ((NewNullEnvironment.writeInput b).2.2).GetInput fuel = none) := by
  refine ⟨⟨rfl, rfl, fun fuel => ?_⟩, ⟨rfl, rfl, fun fuel => ?_⟩,
    ⟨rfl, rfl, fun fuel => ?_⟩⟩ <;>
  · show (drainLoop fuel .nullStream []).map _ = none
    rw [drainLoop_null]
    rfl

/-- C2 (witness): the amended statement at the concrete sequence `[1]`. -/
theorem C2_null_write_ok_drain_diverges_witness :
    (([1] : ByteSeq) ≠ []) ∧
    (((NewNullEnvironment.writeOutput [1]).1 = ([1] : ByteSeq).length ∧
       (NewNullEnvironment.writeOutput [1]).2.1 = none ∧
       ∀ fuel, ((NewNullEnvironment.writeOutput [1]).2.2).GetOutput fuel = none) ∧
     ((NewNullEnvironment.writeError [1]).1 = ([1] : ByteSeq).length ∧
       (NewNullEnvironment.writeError [1]).2.1 = none ∧
       ∀ fuel, ((NewNullEnvironment.writeError [1]).2.2).GetError fuel = none) ∧
     ((NewNullEnvironment.writeInput [1]).1 = ([1] : ByteSeq).length ∧
       (NewNullEnvironment.writeInput [1]).2.1 = none ∧
       ∀ fuel, ((NewNullEnvironment.writeInput [1]).2.2).GetInput fuel = none)) :=
  ⟨by decide, C2_null_write_ok_drain_diverges [1] (by decide)⟩

/-- C3: when every process environment entry contains at least one `=`,
`NewCLIEnvironment` succeeds and its variable table is exactly the table of
first-`=` splits (key: the longest `=`-free front; value: the entire
remainder, which may itself contain `=`), inserted in entry order, plus the
reserved marker key bound to `"cli"`. -/
theorem C3_split_at_first_eq (baseDir : String) (ps : ProcState)
    (h : ∀ s ∈ ps.environ, '=' ∈ s.toList) :
    ∃ e, NewCLIEnvironment baseDir ps = some e ∧
      e.Variables = mapInsert (specTable ps.environ) "FLARGS_EXE_ENVIRONMENT" "cli" := by
  have h2 : envAsMap ps.environ = some (specTable ps.environ) :=
    envFold_eq_foldl ps.environ h []
  refine ⟨{ InputStream := .os ps.stdinEvents
            OutputStream := .os ps.stdoutEvents
            ErrorStream := .os ps.stderrEvents
            Randomness := some ps.nowNanos
            Filesystem := .real
            Variables := mapInsert (specTable ps.environ) "FLARGS_EXE_ENVIRONMENT" "cli"
            Arguments := ps.args }, ?_, rfl⟩
  unfold NewCLIEnvironment
  rw [h2]
  rfl

/-- C3 (witness): a process state whose entries hold `=` inside keys' values
(`"A=b=c"`) and an empty key (`"=v"`). -/
theorem C3_split_at_first_eq_witness :
    (∀ s ∈ (["A=b=c", "=v"] : List String), '=' ∈ s.toList) ∧
    ∃ e, NewCLIEnvironment "/tmp" ⟨["A=b=c", "=v"], [], 0, [], [], []⟩ = some e ∧
      e.Variables = mapInsert (specTable ["A=b=c", "=v"]) "FLARGS_EXE_ENVIRONMENT" "cli" :=
  ⟨by decide, C3_split_at_first_eq "/tmp" ⟨["A=b=c", "=v"], [], 0, [], [], []⟩ (by decide)⟩

/-- C4: an environment entry with no `=` makes `NewCLIEnvironment` fault (the
slice `s[0:i]` with `i = -1` panics, modelled as `none`); when every entry
contains at least one `=`, that branch is unreachable and construction
returns normally. -/
theorem C4_missing_eq_faults (baseDir : String) (ps : ProcState) :
    ((∃ s ∈ ps.environ, '=' ∉ s.toList) → NewCLIEnvironment baseDir ps = none) ∧
    ((∀ s ∈ ps.environ, '=' ∈ s.toList) → (NewCLIEnvironment baseDir ps).isSome = true) := by
  constructor
  · intro h
    unfold NewCLIEnvironment
    rw [show envAsMap ps.environ = none from envFold_eq_none ps.environ [] h]
    rfl
  · intro h
    unfold NewCLIEnvironment
    rw [show envAsMap ps.environ = some (specTable ps.environ) from
      envFold_eq_foldl ps.environ h []]
    rfl

/-- C4 (witness): the fault at the malformed entry `"NOEQ"`, and normal
return on the well-formed environment `["A=1"]`. -/
theorem C4_missing_eq_faults_witness :
    ((∃ s ∈ ((["NOEQ"] : List String)), '=' ∉ s.toList) ∧
      NewCLIEnvironment "" ⟨["NOEQ"], [], 0, [], [], []⟩ = none) ∧
    ((∀ s ∈ ((["A=1"] : List String)), '=' ∈ s.toList) ∧
      (NewCLIEnvironment "" ⟨["A=1"], [], 0, [], [], []⟩).isSome = true) :=
  ⟨⟨by decide, (C4_missing_eq_faults "" ⟨["NOEQ"], [], 0, [], [], []⟩).1 (by decide)⟩,
   ⟨by decide, (C4_missing_eq_faults "" ⟨["A=1"], [], 0, [], [], []⟩).2 (by decide)⟩⟩

/-- C5: every context built by `NewCLIEnvironment` maps the reserved key
`FLARGS_EXE_ENVIRONMENT` to `"cli"` — the insertion happens after the process
environment is imported, so it overwrites any inherited variable of that
name — and every context built by `NewTestingEnvironment` maps it to
`"testing"`. -/
theorem C5_reserved_marker (baseDir : String) (ps : ProcState) (e : Environment)
    (h : NewCLIEnvironment baseDir ps = some e) (r : Option Int) :
    e.Variables.lookup "FLARGS_EXE_ENVIRONMENT" = some "cli" ∧
    (NewTestingEnvironment r).Variables.lookup "FLARGS_EXE_ENVIRONMENT" = some "testing" := by
  constructor
  · unfold NewCLIEnvironment at h
    obtain ⟨m, hm, he⟩ := Option.map_eq_some'.mp h
    subst he
    exact lookup_mapInsert_self m _ _
  · rfl

/-- C5 (witness): a process environment that inherits a conflicting value for
the reserved key; the constructor overwrites it with `"cli"`. -/
theorem C5_reserved_marker_witness :
    NewCLIEnvironment "" ⟨["FLARGS_EXE_ENVIRONMENT=hacked"], [], 0, [], [], []⟩ =
      some { InputStream := .os []
             OutputStream := .os []
             ErrorStream := .os []
             Randomness := some 0
             Filesystem := .real
             Variables := [("FLARGS_EXE_ENVIRONMENT", "cli")]
             Arguments := [] } ∧
    ({ InputStream := .os []
       OutputStream := .os []
       ErrorStream := .os []
       Randomness := some 0
       Filesystem := .real
       Variables := [("FLARGS_EXE_ENVIRONMENT", "cli")]
       Arguments := [] } : Environment).Variables.lookup "FLARGS_EXE_ENVIRONMENT"
        = some "cli" ∧
    (NewTestingEnvironment none).Variables.lookup "FLARGS_EXE_ENVIRONMENT"
        = some "testing" :=
  ⟨by decide,
   C5_reserved_marker "" ⟨["FLARGS_EXE_ENVIRONMENT=hacked"], [], 0, [], [], []⟩ _
     (by decide) none⟩

/-- C6: writing `b` into a testing context's output stream and draining
returns exactly `b` and leaves the context back in its pristine state (the
buffer is consumed), so an immediately following second drain with no
intervening write returns the empty sequence. -/
theorem C6_write_drain_roundtrip (b : ByteSeq) (r : Option Int) :
    ((NewTestingEnvironment r).writeOutput b).2.2.GetOutput 2
        = some (b, NewTestingEnvironment r) ∧
    (NewTestingEnvironment r).GetOutput 2 = some ([], NewTestingEnvironment r) := by
  constructor
  · cases b with
    | nil => rfl
    | cons x xs =>
      have h : ((NewTestingEnvironment r).writeOutput (x :: xs)).2.2.GetOutput 2
          = some ((x :: xs) ++ [], NewTestingEnvironment r) := rfl
      rw [h, List.append_nil]
  · rfl

/-- C7: the drains surface no error: on a stream whose reads deliver the
chunks of `pre` and then fail returning `c` alongside any non-nil result,
each drain returns exactly the bytes accumulated up to and through the failed
read; on an empty stream each drain returns the empty sequence. -/
theorem C7_drain_error_suppression (pre : List ByteSeq) (c : ByteSeq) (r : StreamErr)
    (rest : List ReadEvent) (e : Environment)
    (hO : e.OutputStream = .os (pre.map (fun x => (x, none)) ++ (c, some r) :: rest))
    (hE : e.ErrorStream = .os (pre.map (fun x => (x, none)) ++ (c, some r) :: rest))
    (hI : e.InputStream = .os (pre.map (fun x => (x, none)) ++ (c, some r) :: rest)) :
    ((e.GetOutput (pre.length + 1)).map Prod.fst = some (pre.flatten ++ c) ∧
      (e.GetError (pre.length + 1)).map Prod.fst = some (pre.flatten ++ c) ∧
      (e.GetInput (pre.length + 1)).map Prod.fst = some (pre.flatten ++ c)) ∧
    ∀ e0 : Environment, e0.OutputStream = .buffer [] → e0.ErrorStream = .buffer [] →
      e0.InputStream = .buffer [] →
      ((e0.GetOutput 1).map Prod.fst = some [] ∧
        (e0.GetError 1).map Prod.fst = some [] ∧
        (e0.GetInput 1).map Prod.fst = some []) := by
  refine ⟨⟨?_, ?_, ?_⟩, fun e0 h1 h2 h3 => ⟨?_, ?_, ?_⟩⟩
  · simp [Environment.GetOutput, hO, drainLoop_os]
  · simp [Environment.GetError, hE, drainLoop_os]
  · simp [Environment.GetInput, hI, drainLoop_os]
  · unfold Environment.GetOutput
    rw [h1]
    rfl
  · unfold Environment.GetError
    rw [h2]
    rfl
  · unfold Environment.GetInput
    rw [h3]
    rfl

/-- C7 (witness): all three streams deliver `[5]` and then fail with `[6]`;
each drain returns `[5, 6]` with no error surfaced. -/
theorem C7_drain_error_suppression_witness :
    (envC7.OutputStream = .os [([5], none), ([6], some .fail)] ∧
      envC7.ErrorStream = .os [([5], none), ([6], some .fail)] ∧
      envC7.InputStream = .os [([5], none), ([6], some .fail)]) ∧
    (((envC7.GetOutput 2).map Prod.fst = some [5, 6] ∧
       (envC7.GetError 2).map Prod.fst = some [5, 6] ∧
       (envC7.GetInput 2).map Prod.fst = some [5, 6]) ∧
     ∀ e0 : Environment, e0.OutputStream = .buffer [] → e0.ErrorStream = .buffer [] →
       e0.InputStream = .buffer [] →
       ((e0.GetOutput 1).map Prod.fst = some [] ∧
         (e0.GetError 1).map Prod.fst = some [] ∧
         (e0.GetInput 1).map Prod.fst = some [])) :=
  ⟨⟨rfl, rfl, rfl⟩,
   C7_drain_error_suppression [[5]] [6] .fail [] envC7 rfl rfl rfl⟩

/-- C8: every `NullDevice` filesystem operation is total and error-free for
every argument: the readers return an absent result with a nil error, and
`Remove`/`WriteFile` return a nil error while touching nothing. -/
theorem C8_null_fs_total_and_inert (path name : String) (flag : Int)
    (perm mode : Nat) (data : ByteSeq) :
    NullDevice.Open path = (none, none) ∧
    NullDevice.ReadDir path = (none, none) ∧
    NullDevice.ReadFile path = (none, none) ∧
    NullDevice.Stat path = (none, none) ∧
    NullDevice.OpenFile name flag perm = (none, none) ∧
    NullDevice.Remove path = none ∧
    NullDevice.WriteFile path data mode = none :=
  ⟨rfl, rfl, rfl, rfl, rfl, rfl, rfl⟩

/-- C9: `NewTestingEnvironment` is a total function, so calling it with an
absent (`nil`) randomness source cannot fault, and the stored provider is the
argument itself: the returned context's randomness field is absent. -/
theorem C9_nil_randomness_ok : (NewTestingEnvironment none).Randomness = none := rfl

/-- C10: `NewCLIEnvironment` never reads its `baseDir` parameter: under the
same ambient process state, any two base directories produce the same
context. -/
theorem C10_baseDir_unused (b1 b2 : String) (ps : ProcState) :
    NewCLIEnvironment b1 ps = NewCLIEnvironment b2 ps := rfl
